import Mathlib

/-!
Verification development for the stock-analysis pipeline in
`src/fundamentals.py` (module `fundamentals`).

The Python source is shallowly embedded below:

* Python numbers are modelled as rationals (`ℚ`); all threshold constants
  in the Scorer are decimal literals, which `ℚ` represents exactly.
* The Scorer `evaluate_stock` (lines 69-122) reads thirteen keys of the
  metrics dict; we model that view as a structure `Metrics` of thirteen
  rational fields.  Each `if`/`elif` block of the source is embedded as a
  group function returning (points added, reasons appended, concerns
  appended), and `evaluate_stock` combines the twelve groups in source
  order, exactly as the sequential Python statements do.
* The Metric Extractor `calculate_metrics` (lines 37-68) works on a raw
  provider dict whose values may be JSON null; we model a Python value as
  `PyVal` (null or number) and the profile dict as `String → Option PyVal`
  (`Option.none` = key absent, `some .null` = key present with value
  `None`).  Python's `dict.get(k, d)` returns `d` only when the key is
  absent, never when the value is `None`; `pyGet` models this.  The
  division `info.get("marketCap", 0) / 1e9` raises `TypeError` when the
  value is `None`, hence `calculate_metrics` returns an `Except`.
* `get_stock_data` (lines 206-223, the second, effective definition) is
  modelled over an abstract provider snapshot; the `hist.empty` check and
  the re-raised error are embedded as an `Except` short-circuit that is
  independent of the indicator-derivation function.
* The RSI computation inside `calculate_technical_indicators`
  (lines 187-205) is embedded over exact rationals with pandas' IEEE
  special-value behaviour made explicit: a positive quantity divided by
  zero gives `+inf` (so `100 - 100/(1+inf) = 100`), and `0/0` gives `NaN`
  (an undefined entry, modelled as `Option.none`).
-/

/-- A Python scalar as it appears in the provider's profile dict:
either `None` or a number. -/
inductive PyVal where
  | null : PyVal
  | num : ℚ → PyVal
deriving DecidableEq, Repr

/-- A company-profile dict: `Option.none` means the key is absent,
`some v` means the key is present with value `v` (possibly `PyVal.null`). -/
def Profile : Type := String → Option PyVal

/-- Python `info.get(k, 0)`: the default `0` is used only when the key is
absent; a present `None` value is returned as is. -/
def pyGet (info : Profile) (k : String) : PyVal :=
  (info k).getD (.num 0)

/-- Python `info.get(k)` with no default: absent keys give `None`. -/
def pyGetNone (info : Profile) (k : String) : PyVal :=
  (info k).getD .null

/-- Python truthiness of a profile value: `None` and `0` are falsy. -/
def truthy : PyVal → Bool
  | .null => false
  | .num q => q ≠ 0

/-- Python division of a profile value by a nonzero numeric constant:
`None / c` raises `TypeError`, `q / c` is exact rational division. -/
def pyDivConst (v : PyVal) (c : ℚ) : Except String PyVal :=
  match v with
  | .null => .error "TypeError: unsupported operand type for /"
  | .num q => .ok (.num (q / c))

/-- The metrics dict built by `calculate_metrics` (source lines 37-68):
one field per `metrics[ - ]` assignment, in source order. -/
structure RawMetrics where
  currentPrice : PyVal
  week52High : PyVal
  week52Low : PyVal
  marketCapB : PyVal
  peRatio : PyVal
  forwardPE : PyVal
  pegRatio : PyVal
  priceToBook : PyVal
  priceToSales : PyVal
  evEbitda : PyVal
  currentRatio : PyVal
  debtEquity : PyVal
  quickRatio : PyVal
  returnOnEquity : PyVal
  returnOnAssets : PyVal
  profitMargin : PyVal
  operatingMargin : PyVal
  grossMargin : PyVal
  revenueGrowth : PyVal
  earningsGrowth : PyVal
  dividendYield : PyVal
  payoutRatio : PyVal
deriving DecidableEq, Repr

/-- Embedding of `calculate_metrics(info, hist, balance_sheet, income_stmt,
cash_flow)` (source lines 37-68).  The four non-profile parameters are
unused by the source, kept here as `Unit`.  The only operation that can
raise is `info.get("marketCap", 0) / 1e9` when the stored value is `None`,
hence the `Except`. -/
def calculate_metrics (info : Profile) (_hist _bs _istmt _cf : Unit) :
    Except String RawMetrics :=
  match pyDivConst (pyGet info "marketCap") (1000000000 : ℚ) with
  | .error e => .error e
  | .ok mcapB =>
    .ok {
      currentPrice := pyGet info "currentPrice"
      week52High := pyGet info "fiftyTwoWeekHigh"
      week52Low := pyGet info "fiftyTwoWeekLow"
      marketCapB := mcapB
      peRatio := pyGet info "trailingPE"
      forwardPE := pyGet info "forwardPE"
      pegRatio := pyGet info "pegRatio"
      priceToBook := pyGet info "priceToBook"
      priceToSales := pyGet info "priceToSalesTrailing12Months"
      evEbitda := pyGet info "enterpriseToEbitda"
      currentRatio := pyGet info "currentRatio"
      debtEquity := pyGet info "debtToEquity"
      quickRatio := pyGet info "quickRatio"
      returnOnEquity := pyGet info "returnOnEquity"
      returnOnAssets := pyGet info "returnOnAssets"
      profitMargin := pyGet info "profitMargins"
      operatingMargin := pyGet info "operatingMargins"
      grossMargin := pyGet info "grossMargins"
      revenueGrowth := pyGet info "revenueGrowth"
      earningsGrowth := pyGet info "earningsGrowth"
      dividendYield :=
        if truthy (pyGetNone info "dividendYield") then pyGet info "dividendYield"
        else .num 0
      payoutRatio :=
        if truthy (pyGetNone info "payoutRatio") then pyGet info "payoutRatio"
        else .num 0 }

/-- The thirteen entries of the metrics dict that `evaluate_stock` reads
(source lines 76-119), as rational numbers. -/
structure Metrics where
  peRatio : ℚ
  pegRatio : ℚ
  priceToBook : ℚ
  evEbitda : ℚ
  currentRatio : ℚ
  debtEquity : ℚ
  returnOnEquity : ℚ
  returnOnAssets : ℚ
  operatingMargin : ℚ
  revenueGrowth : ℚ
  earningsGrowth : ℚ
  dividendYield : ℚ
  payoutRatio : ℚ
deriving DecidableEq, Repr

/-- A `PyVal` read as a number, failing on `None` (Python would raise
`TypeError` on the Scorer's comparison). -/
def PyVal.toQ : PyVal → Option ℚ
  | .null => none
  | .num q => some q

/-- The Scorer's numeric view of a raw metrics dict: defined only when all
thirteen read entries are numbers. -/
def toScorer (r : RawMetrics) : Option Metrics :=
  match r.peRatio.toQ, r.pegRatio.toQ, r.priceToBook.toQ, r.evEbitda.toQ,
      r.currentRatio.toQ, r.debtEquity.toQ, r.returnOnEquity.toQ,
      r.returnOnAssets.toQ, r.operatingMargin.toQ,
      r.revenueGrowth.toQ, r.earningsGrowth.toQ, r.dividendYield.toQ,
      r.payoutRatio.toQ with
  | some pe, some peg, some pb, some ev, some cr, some de, some roe,
      some roa, some om, some rg, some eg, some dy, some pr =>
    some ⟨pe, peg, pb, ev, cr, de, roe, roa, om, rg, eg, dy, pr⟩
  | _, _, _, _, _, _, _, _, _, _, _, _, _ => none

/-- Result tuple of `evaluate_stock`:
`(score, max_score, reasons, concerns)`. -/
structure EvalResult where
  score : ℕ
  max_score : ℕ
  reasons : List String
  concerns : List String
deriving DecidableEq, Repr

/-- One predicate group of the Scorer: the points it adds to `score` and
the strings it appends to `reasons` and `concerns`. -/
structure GroupEffect where
  pts : ℕ
  rs : List String
  cs : List String
deriving DecidableEq, Repr

/-- Source lines 76-80: `if 0 < metrics["P/E Ratio"] < 25: ... elif
metrics["P/E Ratio"] > 35: ...`. -/
def peGroup (m : Metrics) : GroupEffect :=
  if 0 < m.peRatio ∧ m.peRatio < 25 then
    ⟨1, ["P/E ratio is reasonable (< 25)"], []⟩
  else if m.peRatio > 35 then
    ⟨0, [], ["High P/E ratio indicates potential overvaluation"]⟩
  else ⟨0, [], []⟩

/-- Source lines 81-83: `if 0 < metrics["PEG Ratio"] < 1.5: ...`. -/
def pegGroup (m : Metrics) : GroupEffect :=
  if 0 < m.pegRatio ∧ m.pegRatio < mkRat 15 10 then
    ⟨1, ["PEG ratio indicates good value (< 1.5)"], []⟩
  else ⟨0, [], []⟩

/-- Source lines 84-86: `if 0 < metrics["Price/Book"] < 3: ...`. -/
def pbGroup (m : Metrics) : GroupEffect :=
  if 0 < m.priceToBook ∧ m.priceToBook < 3 then
    ⟨1, ["Price/Book ratio is attractive (< 3)"], []⟩
  else ⟨0, [], []⟩

/-- Source lines 87-89: `if 0 < metrics["EV/EBITDA"] < 15: ...`. -/
def evGroup (m : Metrics) : GroupEffect :=
  if 0 < m.evEbitda ∧ m.evEbitda < 15 then
    ⟨1, ["EV/EBITDA indicates reasonable valuation (< 15)"], []⟩
  else ⟨0, [], []⟩

/-- Source lines 91-95: `if metrics["Current Ratio"] > 1.5: ... elif
metrics["Current Ratio"] < 1: ...`. -/
def crGroup (m : Metrics) : GroupEffect :=
  if m.currentRatio > mkRat 15 10 then
    ⟨1, ["Strong current ratio (> 1.5)"], []⟩
  else if m.currentRatio < 1 then
    ⟨0, [], ["Low current ratio indicates potential liquidity issues"]⟩
  else ⟨0, [], []⟩

/-- Source lines 96-100: `if metrics["Debt/Equity"] < 1: ... elif
metrics["Debt/Equity"] > 2: ...`. -/
def deGroup (m : Metrics) : GroupEffect :=
  if m.debtEquity < 1 then
    ⟨1, ["Low debt-to-equity ratio (< 1)"], []⟩
  else if m.debtEquity > 2 then
    ⟨0, [], ["High debt levels relative to equity"]⟩
  else ⟨0, [], []⟩

/-- Source lines 102-104: `if metrics["Return on Equity"] > 0.15: ...`. -/
def roeGroup (m : Metrics) : GroupEffect :=
  if m.returnOnEquity > mkRat 15 100 then
    ⟨1, ["Strong Return on Equity (> 15%)"], []⟩
  else ⟨0, [], []⟩

/-- Source lines 105-107: `if metrics["Return on Assets"] > 0.07: ...`. -/
def roaGroup (m : Metrics) : GroupEffect :=
  if m.returnOnAssets > mkRat 7 100 then
    ⟨1, ["Good Return on Assets (> 7%)"], []⟩
  else ⟨0, [], []⟩

/-- Source lines 108-110: `if metrics["Operating Margin"] > 0.15: ...`. -/
def omGroup (m : Metrics) : GroupEffect :=
  if m.operatingMargin > mkRat 15 100 then
    ⟨1, ["Healthy operating margin (> 15%)"], []⟩
  else ⟨0, [], []⟩

/-- Source lines 112-114: `if metrics["Revenue Growth"] > 0.1: ...`. -/
def rgGroup (m : Metrics) : GroupEffect :=
  if m.revenueGrowth > mkRat 1 10 then
    ⟨1, ["Strong revenue growth (> 10%)"], []⟩
  else ⟨0, [], []⟩

/-- Source lines 115-117: `if metrics["Earnings Growth"] > 0.1: ...`. -/
def egGroup (m : Metrics) : GroupEffect :=
  if m.earningsGrowth > mkRat 1 10 then
    ⟨1, ["Strong earnings growth (> 10%)"], []⟩
  else ⟨0, [], []⟩

/-- Source lines 119-121: `if metrics["Dividend Yield"] > 0.02 and
metrics["Payout Ratio"] < 0.75: ...`. -/
def divGroup (m : Metrics) : GroupEffect :=
  if m.dividendYield > mkRat 2 100 ∧ m.payoutRatio < mkRat 75 100 then
    ⟨1, ["Sustainable dividend with good yield (> 2%)"], []⟩
  else ⟨0, [], []⟩

/-- The twelve predicate groups in the source's evaluation order. -/
def groups (m : Metrics) : List GroupEffect :=
  [peGroup m, pegGroup m, pbGroup m, evGroup m, crGroup m, deGroup m,
   roeGroup m, roaGroup m, omGroup m, rgGroup m, egGroup m, divGroup m]

/-- Embedding of `evaluate_stock(metrics)` (source lines 69-122):
`score` starts at 0 and each group adds its points and appends its
reason/concern strings in source order; `max_score` is the constant 12. -/
def evaluate_stock (m : Metrics) : EvalResult :=
  { score := ((groups m).map GroupEffect.pts).sum
    max_score := 12
    reasons := ((groups m).map GroupEffect.rs).flatten
    concerns := ((groups m).map GroupEffect.cs).flatten }

/-- The twelve reason strings in the Scorer's fixed evaluation order. -/
def allReasons : List String :=
  ["P/E ratio is reasonable (< 25)",
   "PEG ratio indicates good value (< 1.5)",
   "Price/Book ratio is attractive (< 3)",
   "EV/EBITDA indicates reasonable valuation (< 15)",
   "Strong current ratio (> 1.5)",
   "Low debt-to-equity ratio (< 1)",
   "Strong Return on Equity (> 15%)",
   "Good Return on Assets (> 7%)",
   "Healthy operating margin (> 15%)",
   "Strong revenue growth (> 10%)",
   "Strong earnings growth (> 10%)",
   "Sustainable dividend with good yield (> 2%)"]

/-- The three concern strings in the Scorer's fixed evaluation order. -/
def allConcerns : List String :=
  ["High P/E ratio indicates potential overvaluation",
   "Low current ratio indicates potential liquidity issues",
   "High debt levels relative to equity"]

/-- The spec's full-pass example mapping (§8, first example). -/
def exampleFullPass : Metrics :=
  { peRatio := 20, pegRatio := mkRat 12 10, priceToBook := 2, evEbitda := 10
    currentRatio := 2, debtEquity := mkRat 5 10, returnOnEquity := mkRat 2 10
    returnOnAssets := mkRat 1 10, operatingMargin := mkRat 2 10, revenueGrowth := mkRat 15 100
    earningsGrowth := mkRat 12 100, dividendYield := mkRat 3 100, payoutRatio := mkRat 5 10 }

/-- The spec's three-concern example: same mapping with P/E = 40,
Current Ratio = 0.8, Debt/Equity = 2.5 (§8, second example). -/
def exampleThreeConcerns : Metrics :=
  { exampleFullPass with peRatio := 40, currentRatio := mkRat 8 10, debtEquity := mkRat 25 10 }

/-- The all-zero metrics mapping. -/
def zeroMetrics : Metrics :=
  { peRatio := 0, pegRatio := 0, priceToBook := 0, evEbitda := 0
    currentRatio := 0, debtEquity := 0, returnOnEquity := 0
    returnOnAssets := 0, operatingMargin := 0, revenueGrowth := 0
    earningsGrowth := 0, dividendYield := 0, payoutRatio := 0 }

/-- The empty company-profile dict: every key absent. -/
def emptyProfile : Profile := fun _ => none

/-- The raw metrics dict with every entry equal to the number `0`, as the
extractor produces from `emptyProfile`. -/
def zeroRawMetrics : RawMetrics :=
  { currentPrice := .num 0, week52High := .num 0, week52Low := .num 0
    marketCapB := .num 0, peRatio := .num 0, forwardPE := .num 0
    pegRatio := .num 0, priceToBook := .num 0, priceToSales := .num 0
    evEbitda := .num 0, currentRatio := .num 0, debtEquity := .num 0
    quickRatio := .num 0, returnOnEquity := .num 0, returnOnAssets := .num 0
    profitMargin := .num 0, operatingMargin := .num 0, grossMargin := .num 0
    revenueGrowth := .num 0, earningsGrowth := .num 0, dividendYield := .num 0
    payoutRatio := .num 0 }

/-- A profile whose only key is `trailingPE`, stored with value `None`
(the provider returned an explicit null for that field). -/
def nullPEProfile : Profile :=
  fun k => if k = "trailingPE" then some .null else none

/-- A metrics mapping whose only non-default entries are a neutral
Current Ratio (1.2: neither reason nor concern) and Debt/Equity = 3. -/
def debtConcernMetrics : Metrics :=
  { zeroMetrics with currentRatio := mkRat 12 10, debtEquity := 3 }

/-- Mask `delta.where(delta > 0, 0)` applied pointwise: keep positive
deltas, replace everything else (negatives, zero, the leading NaN) by 0. -/
def gainPart (x : ℚ) : ℚ := if 0 < x then x else 0

/-- Mask `(-delta.where(delta < 0, 0))` applied pointwise: magnitude of
negative deltas, everything else 0. -/
def lossPart (x : ℚ) : ℚ := if x < 0 then -x else 0

/-- pandas `Series.rolling(window=n).mean()` evaluated on one full
window `w` of length `n`. -/
def rollMean (w : List ℚ) : ℚ := w.sum / (w.length : ℚ)

/-- `hist["Close"].diff()` (source line 193), with the leading NaN already
replaced by 0 - exactly what the subsequent `where` masks do to it, since
both `NaN > 0` and `NaN < 0` are false. -/
def deltas : List ℚ → List ℚ
  | [] => []
  | c :: cs => 0 :: List.zipWith (fun b a => b - a) cs (c :: cs)

/-- The 14-element rolling window of the delta series ending at index `i`
(only meaningful for `13 ≤ i`). -/
def rsiWindow (d : List ℚ) (i : ℕ) : List ℚ := (d.drop (i + 1 - 14)).take 14

/-- Source lines 194-197 on one full 14-delta window:
`rs = gain / loss; RSI = 100 - (100 / (1 + rs))` with pandas float
semantics for the zero-loss window made explicit: `gain > 0` divided by
zero is `+inf`, giving `RSI = 100 - 100/(1+inf) = 100`; `0 / 0` is NaN and
the RSI entry is NaN, i.e. undefined (`Option.none`).  No division-by-zero
error is ever raised. -/
def rsiFromWindow (w : List ℚ) : Option ℚ :=
  let gain := rollMean (w.map gainPart)
  let loss := rollMean (w.map lossPart)
  if loss = 0 then (if gain = 0 then none else some 100)
  else some (100 - 100 / (1 + gain / loss))

/-- The RSI column of `calculate_technical_indicators` (source lines
193-197) over a close-price series: entry `i` is NaN (`none`) while the
14-window is not yet full, and otherwise the RSI of the window of the
last 14 deltas. -/
def rsiSeries (closes : List ℚ) : List (Option ℚ) :=
  (List.range closes.length).map (fun i =>
    if i + 1 < 14 then none
    else rsiFromWindow (rsiWindow (deltas closes) i))

/-- Error raised by `get_stock_data` (source line 214): the NotFound case
of the error taxonomy.  The surrounding `except` block logs the message
and re-raises, so the error reaches the caller. -/
inductive FetchError where
  | notFound : String → FetchError
deriving DecidableEq, Repr

/-- What the external provider returns for one ticker: the profile dict,
the historical close series, and the three financial statements (opaque
to this pipeline, hence an arbitrary type `Stmt`). -/
structure ProviderSnapshot (Stmt : Type) where
  info : Profile
  hist : List ℚ
  balance_sheet : Stmt
  income_stmt : Stmt
  cash_flow : Stmt

/-- Embedding of `get_stock_data(ticker)` (source lines 206-223, the
second, effective definition): if the fetched history is empty, raise
`ValueError("No historical data found for ...")` before touching the
indicator calculator; otherwise augment the history and return
everything.  The indicator derivation is passed in as `calcIndicators`
so that theorems can quantify over it. -/
def get_stock_data {Hist Stmt : Type} (ticker : String)
    (snap : ProviderSnapshot Stmt) (calcIndicators : List ℚ → Hist) :
    Except FetchError (Profile × Hist × Stmt × Stmt × Stmt) :=
  if snap.hist.isEmpty then
    .error (.notFound ("No historical data found for " ++ ticker))
  else
    .ok (snap.info, calcIndicators snap.hist,
      snap.balance_sheet, snap.income_stmt, snap.cash_flow)

/-- The all-empty provider snapshot used as a concrete NotFound case. -/
def emptySnap : ProviderSnapshot Unit :=
  { info := emptyProfile, hist := [], balance_sheet := ()
    income_stmt := (), cash_flow := () }

/-- A constant close-price series of 15 days: every delta is zero, so
every 14-delta window has zero average gain and zero average loss. -/
def constCloses : List ℚ :=
  [10, 10, 10, 10, 10, 10, 10, 10, 10, 10, 10, 10, 10, 10, 10]

/-- A 14-delta window with one gain and no losses. -/
def gainWindow : List ℚ := [1, 0, 0, 0, 0, 0, 0, 0, 0, 0, 0, 0, 0, 0]

theorem peGroup_spec (m : Metrics) :
    (peGroup m).pts = (peGroup m).rs.length ∧ (peGroup m).pts ≤ 1 ∧
    (peGroup m).rs.Sublist ["P/E ratio is reasonable (< 25)"] ∧
    (peGroup m).cs.Sublist ["High P/E ratio indicates potential overvaluation"] := by
  unfold peGroup; split_ifs <;> simp

theorem pegGroup_spec (m : Metrics) :
    (pegGroup m).pts = (pegGroup m).rs.length ∧ (pegGroup m).pts ≤ 1 ∧
    (pegGroup m).rs.Sublist ["PEG ratio indicates good value (< 1.5)"] ∧
    (pegGroup m).cs = [] := by
  unfold pegGroup; split_ifs <;> simp

theorem pbGroup_spec (m : Metrics) :
    (pbGroup m).pts = (pbGroup m).rs.length ∧ (pbGroup m).pts ≤ 1 ∧
    (pbGroup m).rs.Sublist ["Price/Book ratio is attractive (< 3)"] ∧
    (pbGroup m).cs = [] := by
  unfold pbGroup; split_ifs <;> simp

theorem evGroup_spec (m : Metrics) :
    (evGroup m).pts = (evGroup m).rs.length ∧ (evGroup m).pts ≤ 1 ∧
    (evGroup m).rs.Sublist ["EV/EBITDA indicates reasonable valuation (< 15)"] ∧
    (evGroup m).cs = [] := by
  unfold evGroup; split_ifs <;> simp

theorem crGroup_spec (m : Metrics) :
    (crGroup m).pts = (crGroup m).rs.length ∧ (crGroup m).pts ≤ 1 ∧
    (crGroup m).rs.Sublist ["Strong current ratio (> 1.5)"] ∧
    (crGroup m).cs.Sublist ["Low current ratio indicates potential liquidity issues"] := by
  unfold crGroup; split_ifs <;> simp

theorem deGroup_spec (m : Metrics) :
    (deGroup m).pts = (deGroup m).rs.length ∧ (deGroup m).pts ≤ 1 ∧
    (deGroup m).rs.Sublist ["Low debt-to-equity ratio (< 1)"] ∧
    (deGroup m).cs.Sublist ["High debt levels relative to equity"] := by
  unfold deGroup; split_ifs <;> simp

theorem roeGroup_spec (m : Metrics) :
    (roeGroup m).pts = (roeGroup m).rs.length ∧ (roeGroup m).pts ≤ 1 ∧
    (roeGroup m).rs.Sublist ["Strong Return on Equity (> 15%)"] ∧
    (roeGroup m).cs = [] := by
  unfold roeGroup; split_ifs <;> simp

theorem roaGroup_spec (m : Metrics) :
    (roaGroup m).pts = (roaGroup m).rs.length ∧ (roaGroup m).pts ≤ 1 ∧
    (roaGroup m).rs.Sublist ["Good Return on Assets (> 7%)"] ∧
    (roaGroup m).cs = [] := by
  unfold roaGroup; split_ifs <;> simp

theorem omGroup_spec (m : Metrics) :
    (omGroup m).pts = (omGroup m).rs.length ∧ (omGroup m).pts ≤ 1 ∧
    (omGroup m).rs.Sublist ["Healthy operating margin (> 15%)"] ∧
    (omGroup m).cs = [] := by
  unfold omGroup; split_ifs <;> simp

theorem rgGroup_spec (m : Metrics) :
    (rgGroup m).pts = (rgGroup m).rs.length ∧ (rgGroup m).pts ≤ 1 ∧
    (rgGroup m).rs.Sublist ["Strong revenue growth (> 10%)"] ∧
    (rgGroup m).cs = [] := by
  unfold rgGroup; split_ifs <;> simp

theorem egGroup_spec (m : Metrics) :
    (egGroup m).pts = (egGroup m).rs.length ∧ (egGroup m).pts ≤ 1 ∧
    (egGroup m).rs.Sublist ["Strong earnings growth (> 10%)"] ∧
    (egGroup m).cs = [] := by
  unfold egGroup; split_ifs <;> simp

theorem divGroup_spec (m : Metrics) :
    (divGroup m).pts = (divGroup m).rs.length ∧ (divGroup m).pts ≤ 1 ∧
    (divGroup m).rs.Sublist ["Sustainable dividend with good yield (> 2%)"] ∧
    (divGroup m).cs = [] := by
  unfold divGroup; split_ifs <;> simp

theorem evaluate_reasons_sublist (m : Metrics) :
    (evaluate_stock m).reasons.Sublist allReasons := by
  obtain ⟨-, -, h1, -⟩ := peGroup_spec m
  obtain ⟨-, -, h2, -⟩ := pegGroup_spec m
  obtain ⟨-, -, h3, -⟩ := pbGroup_spec m
  obtain ⟨-, -, h4, -⟩ := evGroup_spec m
  obtain ⟨-, -, h5, -⟩ := crGroup_spec m
  obtain ⟨-, -, h6, -⟩ := deGroup_spec m
  obtain ⟨-, -, h7, -⟩ := roeGroup_spec m
  obtain ⟨-, -, h8, -⟩ := roaGroup_spec m
  obtain ⟨-, -, h9, -⟩ := omGroup_spec m
  obtain ⟨-, -, h10, -⟩ := rgGroup_spec m
  obtain ⟨-, -, h11, -⟩ := egGroup_spec m
  obtain ⟨-, -, h12, -⟩ := divGroup_spec m
  simp only [evaluate_stock, groups, List.map_cons, List.map_nil,
    List.flatten_cons, List.flatten_nil, List.append_nil]
  exact h1.append (h2.append (h3.append (h4.append (h5.append (h6.append
    (h7.append (h8.append (h9.append (h10.append (h11.append h12))))))))))

theorem evaluate_concerns_sublist (m : Metrics) :
    (evaluate_stock m).concerns.Sublist allConcerns := by
  obtain ⟨-, -, -, h1⟩ := peGroup_spec m
  obtain ⟨-, -, -, h2⟩ := pegGroup_spec m
  obtain ⟨-, -, -, h3⟩ := pbGroup_spec m
  obtain ⟨-, -, -, h4⟩ := evGroup_spec m
  obtain ⟨-, -, -, h5⟩ := crGroup_spec m
  obtain ⟨-, -, -, h6⟩ := deGroup_spec m
  obtain ⟨-, -, -, h7⟩ := roeGroup_spec m
  obtain ⟨-, -, -, h8⟩ := roaGroup_spec m
  obtain ⟨-, -, -, h9⟩ := omGroup_spec m
  obtain ⟨-, -, -, h10⟩ := rgGroup_spec m
  obtain ⟨-, -, -, h11⟩ := egGroup_spec m
  obtain ⟨-, -, -, h12⟩ := divGroup_spec m
  simp only [evaluate_stock, groups, List.map_cons, List.map_nil,
    List.flatten_cons, List.flatten_nil, h2, h3, h4, h7, h8, h9, h10, h11,
    h12, List.nil_append, List.append_nil]
  exact h1.append (h5.append h6)

theorem gainPart_nonneg (x : ℚ) : 0 ≤ gainPart x := by
  unfold gainPart; split_ifs with h
  · exact le_of_lt h
  · exact le_refl 0

theorem lossPart_nonneg (x : ℚ) : 0 ≤ lossPart x := by
  unfold lossPart; split_ifs with h
  · linarith
  · exact le_refl 0

theorem rollMean_nonneg (w : List ℚ) (h : ∀ x ∈ w, 0 ≤ x) : 0 ≤ rollMean w := by
  unfold rollMean
  exact div_nonneg (List.sum_nonneg h) (Nat.cast_nonneg _)

theorem rsiFromWindow_bounds (w : List ℚ) (v : ℚ)
    (h : rsiFromWindow w = some v) : 0 ≤ v ∧ v ≤ 100 := by
  unfold rsiFromWindow at h
  have hg0 : 0 ≤ rollMean (w.map gainPart) := by
    refine rollMean_nonneg _ (fun x hx => ?_)
    obtain ⟨y, -, rfl⟩ := List.mem_map.1 hx
    exact gainPart_nonneg y
  have hl0 : 0 ≤ rollMean (w.map lossPart) := by
    refine rollMean_nonneg _ (fun x hx => ?_)
    obtain ⟨y, -, rfl⟩ := List.mem_map.1 hx
    exact lossPart_nonneg y
  set g := rollMean (w.map gainPart) with hgdef
  set l := rollMean (w.map lossPart) with hldef
  simp only at h
  split_ifs at h with h1 h2
  · have hv : (100 : ℚ) = v := Option.some.inj h
    subst hv
    constructor <;> norm_num
  · have hlpos : 0 < l := lt_of_le_of_ne hl0 (Ne.symm h1)
    have hrs : 0 ≤ g / l := div_nonneg hg0 hl0
    have hle : 100 / (1 + g / l) ≤ 100 := div_le_self (by norm_num) (by linarith)
    have hpos : 0 ≤ 100 / (1 + g / l) := div_nonneg (by norm_num) (by linarith)
    have hv : 100 - 100 / (1 + g / l) = v := Option.some.inj h
    constructor <;> rw [← hv] <;> linarith

theorem rsiSeries_defined_bounds (closes : List ℚ) (i : ℕ) (v : ℚ)
    (h : (rsiSeries closes)[i]? = some (some v)) : 0 ≤ v ∧ v ≤ 100 := by
  unfold rsiSeries at h
  rw [List.getElem?_map] at h
  cases hr : (List.range closes.length)[i]? with
  | none => rw [hr] at h; simp at h
  | some j =>
    rw [hr] at h
    simp only [Option.map_some'] at h
    have h2 := Option.some.inj h
    split_ifs at h2 with hw
    exact rsiFromWindow_bounds _ _ h2

theorem calculate_metrics_emptyProfile :
    calculate_metrics emptyProfile () () () () = Except.ok zeroRawMetrics := by
  simp [calculate_metrics, pyGet, pyGetNone, pyDivConst, truthy,
    emptyProfile, zeroRawMetrics]

/-- C1: on the Metrics Mapping with P/E Ratio = 20, PEG Ratio = 1.2,
Price/Book = 2, EV/EBITDA = 10, Current Ratio = 2, Debt/Equity = 0.5,
Return on Equity = 0.2, Return on Assets = 0.1, Operating Margin = 0.2,
Revenue Growth = 0.15, Earnings Growth = 0.12, Dividend Yield = 0.03,
Payout Ratio = 0.5, the Scorer returns score = 12 and no concerns. -/
theorem evaluate_stock_fullPass :
    (evaluate_stock exampleFullPass).score = 12 ∧
    (evaluate_stock exampleFullPass).concerns = [] := by decide

/-- C2: on the full-pass mapping with P/E Ratio = 40, Current Ratio = 0.8
and Debt/Equity = 2.5, the Scorer returns score = 9 and exactly the three
concerns of the P/E, Current Ratio and Debt/Equity groups (in that
order), each of those three groups contributing 0 points. -/
theorem evaluate_stock_threeConcerns :
    (evaluate_stock exampleThreeConcerns).score = 9 ∧
    (evaluate_stock exampleThreeConcerns).concerns =
      ["High P/E ratio indicates potential overvaluation",
       "Low current ratio indicates potential liquidity issues",
       "High debt levels relative to equity"] ∧
    (peGroup exampleThreeConcerns).pts = 0 ∧
    (crGroup exampleThreeConcerns).pts = 0 ∧
    (deGroup exampleThreeConcerns).pts = 0 := by decide

/-- C3 counterexample: on the all-zero Metrics Mapping the Scorer does
not return (score = 0, reasons = [], concerns = []): Debt/Equity = 0
satisfies `< 1` (one point, one reason) and Current Ratio = 0 satisfies
`< 1` (one concern). -/
theorem evaluate_stock_zeroMetrics_ne_specExample :
    evaluate_stock zeroMetrics ≠
      { score := 0, max_score := 12, reasons := [], concerns := [] } := by decide

/-- C3 (amended): the Metric Extractor on the empty profile produces the
all-zero metrics dict, whose thirteen Scorer-read entries are the
all-zero Metrics Mapping, and the Scorer on that mapping returns
score = 1 with the Debt/Equity reason and the Current Ratio concern. -/
theorem calculate_metrics_empty_profile_eval :
    calculate_metrics emptyProfile () () () () = Except.ok zeroRawMetrics ∧
    toScorer zeroRawMetrics = some zeroMetrics ∧
    evaluate_stock zeroMetrics =
      { score := 1, max_score := 12
        reasons := ["Low debt-to-equity ratio (< 1)"]
        concerns := ["Low current ratio indicates potential liquidity issues"] } :=
  ⟨calculate_metrics_emptyProfile, by decide, by decide⟩

/-- C4 counterexample: when the provider field `trailingPE` is present
with value `None`, the Metric Extractor stores `None` (Python
`dict.get` only falls back to its default for absent keys), not the
number 0. -/
theorem calculate_metrics_null_field_not_zero :
    (calculate_metrics nullPEProfile () () () ()).map RawMetrics.peRatio =
      Except.ok PyVal.null ∧ PyVal.null ≠ PyVal.num 0 := by
  constructor
  · simp [calculate_metrics, pyGet, pyGetNone, pyDivConst, truthy,
      nullPEProfile, Except.map]
  · decide

/-- C4 (amended): every metric defaults to the number 0 when its source
field is absent from the profile; a present-but-null field is stored as
`None` instead, except for Dividend Yield and Payout Ratio, whose
truthiness guard also maps null (and numeric 0) to 0. -/
theorem calculate_metrics_absent_defaults_zero (info : Profile)
    (r : RawMetrics) (h : calculate_metrics info () () () () = Except.ok r) :
    (info "currentPrice" = none → r.currentPrice = PyVal.num 0) ∧
    (info "fiftyTwoWeekHigh" = none → r.week52High = PyVal.num 0) ∧
    (info "fiftyTwoWeekLow" = none → r.week52Low = PyVal.num 0) ∧
    (info "marketCap" = none → r.marketCapB = PyVal.num 0) ∧
    (info "trailingPE" = none → r.peRatio = PyVal.num 0) ∧
    (info "forwardPE" = none → r.forwardPE = PyVal.num 0) ∧
    (info "pegRatio" = none → r.pegRatio = PyVal.num 0) ∧
    (info "priceToBook" = none → r.priceToBook = PyVal.num 0) ∧
    (info "priceToSalesTrailing12Months" = none → r.priceToSales = PyVal.num 0) ∧
    (info "enterpriseToEbitda" = none → r.evEbitda = PyVal.num 0) ∧
    (info "currentRatio" = none → r.currentRatio = PyVal.num 0) ∧
    (info "debtToEquity" = none → r.debtEquity = PyVal.num 0) ∧
    (info "quickRatio" = none → r.quickRatio = PyVal.num 0) ∧
    (info "returnOnEquity" = none → r.returnOnEquity = PyVal.num 0) ∧
    (info "returnOnAssets" = none → r.returnOnAssets = PyVal.num 0) ∧
    (info "profitMargins" = none → r.profitMargin = PyVal.num 0) ∧
    (info "operatingMargins" = none → r.operatingMargin = PyVal.num 0) ∧
    (info "grossMargins" = none → r.grossMargin = PyVal.num 0) ∧
    (info "revenueGrowth" = none → r.revenueGrowth = PyVal.num 0) ∧
    (info "earningsGrowth" = none → r.earningsGrowth = PyVal.num 0) ∧
    (info "dividendYield" = none → r.dividendYield = PyVal.num 0) ∧
    (info "payoutRatio" = none → r.payoutRatio = PyVal.num 0) ∧
    (info "dividendYield" = some PyVal.null → r.dividendYield = PyVal.num 0) ∧
    (info "payoutRatio" = some PyVal.null → r.payoutRatio = PyVal.num 0) := by
  unfold calculate_metrics at h
  cases hdiv : pyDivConst (pyGet info "marketCap") (1000000000 : ℚ) with
  | error e => rw [hdiv] at h; exact absurd h (by simp)
  | ok mc =>
    rw [hdiv] at h
    have hr := Except.ok.inj h
    subst hr
    refine ⟨?_, ?_, ?_, ?_, ?_, ?_, ?_, ?_, ?_, ?_, ?_, ?_, ?_, ?_, ?_,
      ?_, ?_, ?_, ?_, ?_, ?_, ?_, ?_, ?_⟩ <;> intro ha
    pick_goal 4
    · simp [pyGet, pyDivConst, ha] at hdiv
      simp [← hdiv]
    all_goals simp [pyGet, pyGetNone, truthy, ha]

/-- Witness for the amended C4 theorem: on the empty profile the
extractor succeeds with the all-zero dict, and the absent `trailingPE`
field is stored as the number 0. -/
theorem calculate_metrics_absent_defaults_zero_witness :
    calculate_metrics emptyProfile () () () () = Except.ok zeroRawMetrics ∧
    zeroRawMetrics.peRatio = PyVal.num 0 := by
  have hc := calculate_metrics_emptyProfile
  exact ⟨hc,
    (calculate_metrics_absent_defaults_zero emptyProfile zeroRawMetrics hc).2.2.2.2.1 rfl⟩

/-- C5 counterexample: a third predicate group, Debt/Equity, can also
append a concern (`elif metrics["Debt/Equity"] > 2`, source lines
99-100): with Debt/Equity = 3 and a neutral Current Ratio the Scorer
emits a concern that is neither the P/E concern nor the Current Ratio
concern. -/
theorem evaluate_stock_third_concern_group :
    ¬ (∀ s ∈ (evaluate_stock debtConcernMetrics).concerns,
        s = "High P/E ratio indicates potential overvaluation" ∨
        s = "Low current ratio indicates potential liquidity issues") := by decide

/-- C5 (amended): exactly three predicate groups - P/E Ratio, Current
Ratio and Debt/Equity - have a concern threshold in addition to their
reason threshold; in each of the three the reason threshold and the
concern threshold are disjoint, every concern the Scorer emits is one of
these three fixed strings, and each of the three can actually fire. -/
theorem evaluate_stock_concern_groups :
    (∀ m : Metrics, ∀ s ∈ (evaluate_stock m).concerns,
      s = "High P/E ratio indicates potential overvaluation" ∨
      s = "Low current ratio indicates potential liquidity issues" ∨
      s = "High debt levels relative to equity") ∧
    (∀ m : Metrics, (0 < m.peRatio ∧ m.peRatio < 25) → ¬ (m.peRatio > 35)) ∧
    (∀ m : Metrics, m.currentRatio > mkRat 15 10 → ¬ (m.currentRatio < 1)) ∧
    (∀ m : Metrics, m.debtEquity < 1 → ¬ (m.debtEquity > 2)) ∧
    (evaluate_stock { zeroMetrics with peRatio := 40, currentRatio := 2 }).concerns
      = ["High P/E ratio indicates potential overvaluation"] ∧
    (evaluate_stock zeroMetrics).concerns
      = ["Low current ratio indicates potential liquidity issues"] ∧
    (evaluate_stock debtConcernMetrics).concerns
      = ["High debt levels relative to equity"] := by
  refine ⟨?_, ?_, ?_, ?_, by decide, by decide, by decide⟩
  · intro m s hs
    have hsub := (evaluate_concerns_sublist m).subset
    have := hsub hs
    simpa [allConcerns] using this
  · rintro m ⟨h1, h2⟩ h3
    linarith
  · intro m h1 h2
    have h15 : (mkRat 15 10 : ℚ) = 3 / 2 := by norm_num [Rat.mkRat_eq_div]
    rw [h15] at h1
    linarith
  · intro m h1 h2
    linarith

/-- Witness for the amended C5 theorem: applying the disjointness part
at the full-pass example, whose P/E Ratio 20 passes the reason threshold
and therefore cannot trip the concern threshold. -/
theorem evaluate_stock_concern_groups_witness :
    ¬ (exampleFullPass.peRatio > 35) :=
  evaluate_stock_concern_groups.2.1 exampleFullPass ⟨by decide, by decide⟩

/-- C6: for every Metrics Mapping the Scorer's score lies in [0, 12] and
the returned max_score is the constant 12 (the score is a natural
number, so the lower bound is by construction). -/
theorem evaluate_stock_score_bounded (m : Metrics) :
    0 ≤ (evaluate_stock m).score ∧ (evaluate_stock m).score ≤ 12 ∧
    (evaluate_stock m).max_score = 12 := by
  obtain ⟨-, h1, -, -⟩ := peGroup_spec m
  obtain ⟨-, h2, -, -⟩ := pegGroup_spec m
  obtain ⟨-, h3, -, -⟩ := pbGroup_spec m
  obtain ⟨-, h4, -, -⟩ := evGroup_spec m
  obtain ⟨-, h5, -, -⟩ := crGroup_spec m
  obtain ⟨-, h6, -, -⟩ := deGroup_spec m
  obtain ⟨-, h7, -, -⟩ := roeGroup_spec m
  obtain ⟨-, h8, -, -⟩ := roaGroup_spec m
  obtain ⟨-, h9, -, -⟩ := omGroup_spec m
  obtain ⟨-, h10, -, -⟩ := rgGroup_spec m
  obtain ⟨-, h11, -, -⟩ := egGroup_spec m
  obtain ⟨-, h12, -, -⟩ := divGroup_spec m
  refine ⟨Nat.zero_le _, ?_, rfl⟩
  simp only [evaluate_stock, groups, List.map_cons, List.map_nil,
    List.sum_cons, List.sum_nil]
  omega

/-- C7: the Scorer is deterministic - equal Metrics Mappings give equal
results - and the reasons and concerns lists are always sublists of the
fixed, source-ordered full reason and concern lists, i.e. they appear in
the fixed evaluation order of the threshold table. -/
theorem evaluate_stock_deterministic_ordered (m₁ m₂ : Metrics) (h : m₁ = m₂) :
    evaluate_stock m₁ = evaluate_stock m₂ ∧
    (evaluate_stock m₁).reasons.Sublist allReasons ∧
    (evaluate_stock m₁).concerns.Sublist allConcerns := by
  subst h
  exact ⟨rfl, evaluate_reasons_sublist m₁, evaluate_concerns_sublist m₁⟩

/-- Witness for the C7 theorem at the full-pass example mapping. -/
theorem evaluate_stock_deterministic_ordered_witness :
    evaluate_stock exampleFullPass = evaluate_stock exampleFullPass ∧
    (evaluate_stock exampleFullPass).reasons.Sublist allReasons ∧
    (evaluate_stock exampleFullPass).concerns.Sublist allConcerns :=
  evaluate_stock_deterministic_ordered exampleFullPass exampleFullPass rfl

/-- C8: when the provider returns an empty historical series, data
acquisition raises `ValueError` (the NotFound case) before any indicator
derivation - the result is the same for every indicator function and
never reaches the success branch - and the error is propagated to the
caller (the source logs it and re-raises), not swallowed. -/
theorem get_stock_data_empty_notFound {Hist Stmt : Type} (ticker : String)
    (snap : ProviderSnapshot Stmt) (f g : List ℚ → Hist)
    (h : snap.hist = []) :
    get_stock_data ticker snap f =
      Except.error (.notFound ("No historical data found for " ++ ticker)) ∧
    get_stock_data ticker snap f = get_stock_data ticker snap g := by
  constructor <;> simp [get_stock_data, h]

/-- Witness for the C8 theorem: a concrete ticker with an empty series. -/
theorem get_stock_data_empty_notFound_witness :
    get_stock_data "AAPL" emptySnap (fun _ => ()) =
      Except.error (FetchError.notFound ("No historical data found for " ++ "AAPL")) :=
  (get_stock_data_empty_notFound "AAPL" emptySnap (fun _ => ()) (fun _ => ()) rfl).1

/-- C9 counterexample: on a constant-price series the 14-period average
loss is zero, yet the RSI entry at index 13 is NaN (undefined, pandas
`0/0`), not a defined saturation value - contradicting the claim that a
zero average loss always yields a defined value toward 100. -/
theorem rsi_zero_loss_undefined :
    rollMean ((rsiWindow (deltas constCloses) 13).map lossPart) = 0 ∧
    (rsiSeries constCloses)[13]? = some none := by
  constructor
  · simp [rsiWindow, deltas, constCloses, rollMean, lossPart]
  · simp [rsiSeries, rsiWindow, deltas, constCloses, rsiFromWindow,
      rollMean, gainPart, lossPart, List.range_succ]

/-- C9 (amended): every defined RSI entry lies in [0, 100]; when the
14-period average loss is zero and the average gain is positive the RSI
entry is the defined saturation value 100 (pandas evaluates `gain/0` to
`+inf` and `100 - 100/(1+inf)` to 100, raising no error); but when both
averages are zero (constant prices) the entry is NaN, i.e. undefined. -/
theorem rsi_bounded_and_saturates :
    (∀ closes : List ℚ, ∀ i : ℕ, ∀ v : ℚ,
        (rsiSeries closes)[i]? = some (some v) → 0 ≤ v ∧ v ≤ 100) ∧
    (∀ w : List ℚ, rollMean (w.map lossPart) = 0 →
        rollMean (w.map gainPart) ≠ 0 → rsiFromWindow w = some 100) ∧
    rsiFromWindow (rsiWindow (deltas constCloses) 13) = none := by
  refine ⟨rsiSeries_defined_bounds, ?_, ?_⟩
  · intro w h1 h2
    simp [rsiFromWindow, h1, h2]
  · simp [rsiWindow, deltas, constCloses, rsiFromWindow, rollMean,
      gainPart, lossPart]

/-- Witness for the amended C9 theorem: a window with one positive delta
and no negative delta has zero average loss and RSI exactly 100. -/
theorem rsi_bounded_and_saturates_witness :
    rollMean (gainWindow.map lossPart) = 0 ∧
    rsiFromWindow gainWindow = some 100 := by
  have h1 : rollMean (gainWindow.map lossPart) = 0 := by
    simp [gainWindow, rollMean, lossPart]
  have h2 : rollMean (gainWindow.map gainPart) ≠ 0 := by
    simp [gainWindow, rollMean, gainPart]
  exact ⟨h1, rsi_bounded_and_saturates.2.1 gainWindow h1 h2⟩

/-- C10: the Scorer's score always equals the length of its reasons
list: every awarded point appends exactly one reason and vice versa. -/
theorem evaluate_stock_score_eq_reasons_length (m : Metrics) :
    (evaluate_stock m).score = (evaluate_stock m).reasons.length := by
  obtain ⟨h1, -, -, -⟩ := peGroup_spec m
  obtain ⟨h2, -, -, -⟩ := pegGroup_spec m
  obtain ⟨h3, -, -, -⟩ := pbGroup_spec m
  obtain ⟨h4, -, -, -⟩ := evGroup_spec m
  obtain ⟨h5, -, -, -⟩ := crGroup_spec m
  obtain ⟨h6, -, -, -⟩ := deGroup_spec m
  obtain ⟨h7, -, -, -⟩ := roeGroup_spec m
  obtain ⟨h8, -, -, -⟩ := roaGroup_spec m
  obtain ⟨h9, -, -, -⟩ := omGroup_spec m
  obtain ⟨h10, -, -, -⟩ := rgGroup_spec m
  obtain ⟨h11, -, -, -⟩ := egGroup_spec m
  obtain ⟨h12, -, -, -⟩ := divGroup_spec m
  simp only [evaluate_stock, groups, List.map_cons, List.map_nil,
    List.sum_cons, List.sum_nil, List.flatten_cons, List.flatten_nil,
    List.length_append, List.length_nil]
  omega

/-- Witness for the C6 theorem at the full-pass example mapping. -/
theorem evaluate_stock_score_bounded_witness :
    0 ≤ (evaluate_stock exampleFullPass).score ∧
    (evaluate_stock exampleFullPass).score ≤ 12 ∧
    (evaluate_stock exampleFullPass).max_score = 12 :=
  evaluate_stock_score_bounded exampleFullPass

/-- Witness for the C10 theorem at the three-concern example mapping. -/
theorem evaluate_stock_score_eq_reasons_length_witness :
    (evaluate_stock exampleThreeConcerns).score =
      (evaluate_stock exampleThreeConcerns).reasons.length :=
  evaluate_stock_score_eq_reasons_length exampleThreeConcerns
